import Mathlib

/-!
Verification development for the humanoid-skateboard pushing task
(`mjpc/tasks/humanoid/skateboard/pushing.cc`).

The C++ source is shallowly embedded: flat `double` arrays of the MuJoCo
model and data become total functions `ℕ → ℝ`, `std::vector<double>`
parameter vectors become `List ℝ`, and the name-resolution services of the
external MuJoCo library (`mj_name2id` composed with `body_mocapid`,
`ParameterIndex`, `SensorByName`) become resolved-id and lookup fields of
the model/data records.  Machine doubles are modelled as exact reals.
-/

/-- MuJoCo constant `mjMINVAL` (1e-15), the threshold below which
`mju_normalize` treats a vector as degenerate. -/
noncomputable def mjMINVAL : ℝ := 1e-15

/-- Hardcoded constant `kFps` matching keyframes from the CMU mocap dataset. -/
noncomputable def kFps : ℝ := 30.0

/-- Module-level mutable state of the anonymous namespace of the source
file: the (unused) counter `int jiiri = 0`. -/
structure Globals where
  jiiri : ℤ

/-- The slice of `mjModel` read by the embedded code.  Name resolution
(`mj_name2id`, `body_mocapid`, `ParameterIndex`) is performed by the
external MuJoCo / mjpc collaborators, so the record carries the resolved
integer ids and index maps directly. -/
structure MjModel where
  nq : ℕ
  nv : ℕ
  nu : ℕ
  nmocap : ℕ
  /-- Externally declared total sensor dimensionality (the number the
  residual length is checked against). -/
  sensorDim : ℕ
  /-- Resolved id of xbody `skateboard` (`mj_name2id(model, mjOBJ_XBODY, ...)`). -/
  skateboard_xbody : ℕ
  /-- Resolved mocap id of the `goal` body (`body_mocapid[mj_name2id(...)]`). -/
  goal_mocapid : ℕ
  /-- Resolved mocap id of body `mocap[name]` for a humanoid body `name`
  (`body_mocapid[mj_name2id(model, mjOBJ_BODY, "mocap[" + name + "]")]`). -/
  mocapid : String → ℕ
  /-- `mjpc::ParameterIndex(model, name)`. -/
  paramIndex : String → ℕ
  /-- Resolved geom id of `foot1_left`. -/
  left_heel_geom : ℤ
  /-- Resolved geom id of `foot2_left`. -/
  left_toe_geom : ℤ
  /-- Resolved geom id of `floor`. -/
  floor_geom : ℤ
  key_qpos : ℕ → ℝ
  key_qvel : ℕ → ℝ
  key_mpos : ℕ → ℝ

/-- The slice of `mjData` read or written by the embedded code.  Contact
forces extracted by the external `mj_contactForce` for a valid contact
index are given by the `contactForce` field; sensor values returned by
`mjpc::SensorByName` are given by the `sensor` field. -/
structure MjData where
  time : ℝ
  qpos : ℕ → ℝ
  qvel : ℕ → ℝ
  ctrl : ℕ → ℝ
  xpos : ℕ → ℝ
  xmat : ℕ → ℝ
  mocap_pos : ℕ → ℝ
  ncon : ℕ
  contact_geom1 : ℕ → ℤ
  contact_geom2 : ℕ → ℤ
  contactForce : ℕ → ℕ → ℝ
  sensor : String → ℕ → ℝ

/-- Member state of `Pushing::ResidualFn`: the parameter vector, the
current motion mode, the reference time, and the ids resolved by
`Pushing::ResetLocked`. -/
structure ResidualFn where
  parameters : List ℝ
  current_mode : ℕ
  reference_time : ℝ
  skateboard_body_id : ℕ
  goal_body_mocap_id : ℕ

/-- The persistent `{current_mode_, reference_time_}` state mutated by
`Pushing::TransitionLocked`. -/
structure TransState where
  current_mode : ℕ
  reference_time : ℝ

/-- `std::clamp(v, lo, hi)`: `v < lo ? lo : (hi < v ? hi : v)`. -/
def std_clamp {α : Type} [LinearOrder α] (v lo hi : α) : α :=
  if v < lo then lo else if hi < v then hi else v

/-- `ComputeInterpolationValues` from the source: clamp the fractional
index to `[0, max_index]`, split into integer part `index_0` and
fractional weight `weight_1`; `index_1 = min(index_0 + 1, max_index)`,
`weight_0 = 1 - weight_1`. -/
noncomputable def ComputeInterpolationValues (index : ℝ) (max_index : ℤ) :
    ℤ × ℤ × ℝ × ℝ :=
  let c : ℝ := std_clamp index 0 (max_index : ℝ)
  let index_0 : ℤ := ⌊c⌋
  let index_1 : ℤ := min (index_0 + 1) max_index
  let weight_1 : ℝ := c - (index_0 : ℝ)
  let weight_0 : ℝ := 1 - weight_1
  (index_0, index_1, weight_0, weight_1)

/-- `kMotionLengths`: lengths of the motion segments (a single segment,
"pushing", of one keyframe). -/
def kMotionLengths : List ℕ := [1]

/-- `MotionLength(id)`: length of motion trajectory `id`. -/
def MotionLength (id : ℕ) : ℕ := kMotionLengths.getD id 0

/-- `MotionStartIndex(id)`: the C loop `start = 0; for (i = 0; i < id; i++)
start += MotionLength(i);`. -/
def MotionStartIndex (id : ℕ) : ℕ :=
  (List.range id).foldl (fun start i => start + MotionLength i) 0

/-- Names of the sixteen humanoid bodies. -/
def body_names : List String :=
  ["pelvis", "head", "ltoe", "rtoe", "lheel", "rheel",
   "lknee", "rknee", "lhand", "rhand", "lelbow", "relbow",
   "lshoulder", "rshoulder", "lhip", "rhip"]

/-- Names of the eleven tracked bodies. -/
def track_body_names : List String :=
  ["pelvis", "ltoe", "rtoe", "lheel", "rheel", "lhand",
   "rhand", "lshoulder", "rshoulder", "lhip", "rhip"]

/-- Model of the external MuJoCo `mju_normalize` on a planar 2-vector: it
returns the vector scaled to unit length when its norm is at least
`mjMINVAL`, and writes the degenerate unit vector `(1, 0)` otherwise. -/
noncomputable def mju_normalize2 (v : ℝ × ℝ) : ℝ × ℝ :=
  let n := Real.sqrt (v.1 ^ 2 + v.2 ^ 2)
  if n < mjMINVAL then (1, 0) else (v.1 / n, v.2 / n)

/-- Planar distance from the skateboard body to the goal marker computed
at the top of `move_goal`: `mju_norm(goal - skateboard, 2)`. -/
noncomputable def goalDist (m : MjModel) (d : MjData) : ℝ :=
  Real.sqrt ((d.mocap_pos (3 * m.goal_mocapid) - d.xpos (3 * m.skateboard_xbody)) ^ 2 +
    (d.mocap_pos (3 * m.goal_mocapid + 1) - d.xpos (3 * m.skateboard_xbody + 1)) ^ 2)

/-- Norm of the skateboard planar heading vector
`(xmat[0], xmat[3])` used by `move_goal` before normalization. -/
noncomputable def headingNorm (m : MjModel) (d : MjData) : ℝ :=
  Real.sqrt ((d.xmat (9 * m.skateboard_xbody)) ^ 2 +
    (d.xmat (9 * m.skateboard_xbody + 3)) ^ 2)

/-- `move_goal` from the source.  The one `std::bernoulli_distribution`
draw made on the relocation path is passed in as the explicit argument
`draw` (true chooses the `(-y, +x)` perpendicular).  The fatal
`mju_error` paths for a missing `goal` body are external configuration
errors; the record carries the resolved ids. -/
noncomputable def move_goal (m : MjModel) (d : MjData) (draw : Bool) : MjData :=
  let g := m.goal_mocapid
  let sb := m.skateboard_xbody
  let gp2 := d.mocap_pos (3 * g + 2)
  let sp0 := d.xpos (3 * sb)
  let sp1 := d.xpos (3 * sb + 1)
  if goalDist m d < 0.5 then
    let u := mju_normalize2 (d.xmat (9 * sb), d.xmat (9 * sb + 3))
    let fwd0 := u.1 * 8
    let fwd1 := u.2 * 8
    let perp0 := if draw then -u.2 * 2 else u.2 * 2
    let perp1 := if draw then u.1 * 2 else -u.1 * 2
    let n0 := sp0 + (fwd0 + perp0)
    let n1 := sp1 + (fwd1 + perp1)
    { d with mocap_pos := fun i =>
        if i = 3 * g then n0
        else if i = 3 * g + 1 then n1
        else if i = 3 * g + 2 then gp2
        else d.mocap_pos i }
  else d

/-- State threaded through the contact-search loop of
`ComputeFootContactForceResidual`: the two contact indices, initialized to
the invalid sentinel `-1`, and the number of matches found.  The source
stores a heel-floor match in `left_toe_contact_id` and a toe-floor match
in `left_heel_contact_id`; that swap is preserved here. -/
structure ContactScanState where
  left_toe_contact_id : ℤ
  left_heel_contact_id : ℤ
  found : ℕ
deriving DecidableEq

/-- Contact `i` pairs geom `foot1_left` with geom `floor` (in either slot). -/
def heelFloorContact (m : MjModel) (d : MjData) (i : ℕ) : Prop :=
  (d.contact_geom1 i = m.left_heel_geom ∧ d.contact_geom2 i = m.floor_geom) ∨
  (d.contact_geom2 i = m.left_heel_geom ∧ d.contact_geom1 i = m.floor_geom)

/-- Contact `i` pairs geom `foot2_left` with geom `floor` (in either slot). -/
def toeFloorContact (m : MjModel) (d : MjData) (i : ℕ) : Prop :=
  (d.contact_geom1 i = m.left_toe_geom ∧ d.contact_geom2 i = m.floor_geom) ∨
  (d.contact_geom2 i = m.left_toe_geom ∧ d.contact_geom1 i = m.floor_geom)

instance (m : MjModel) (d : MjData) (i : ℕ) : Decidable (heelFloorContact m d i) := by
  unfold heelFloorContact
  infer_instance

instance (m : MjModel) (d : MjData) (i : ℕ) : Decidable (toeFloorContact m d i) := by
  unfold toeFloorContact
  infer_instance

/-- The contact-search loop of `ComputeFootContactForceResidual`, with the
`found == 2` early break modelled by a fold whose step is the identity
once two matches have been found. -/
def contactScan (m : MjModel) (d : MjData) : ContactScanState :=
  (List.range d.ncon).foldl
    (fun st i =>
      if st.found = 2 then st
      else if heelFloorContact m d i then
        { st with left_toe_contact_id := (i : ℤ), found := st.found + 1 }
      else if toeFloorContact m d i then
        { st with left_heel_contact_id := (i : ℤ), found := st.found + 1 }
      else st)
    ⟨-1, -1, 0⟩

/-- Model of the external MuJoCo `mj_contactForce`: the six-component
output is zero-initialized and filled from the solver state only for a
valid contact index `0 ≤ id < ncon`; for an invalid index (such as the
`-1` sentinel) no contact entry is read and the output stays zero. -/
def mj_contactForce (d : MjData) (id : ℤ) (k : ℕ) : ℝ :=
  if 0 ≤ id ∧ id < (d.ncon : ℤ) then d.contactForce id.toNat k else 0

/-- `force_abs_sum`: the sum of the absolute values of the first three
components of the summed toe and heel contact forces. -/
noncomputable def forceAbsSum (m : MjModel) (d : MjData) : ℝ :=
  let st := contactScan m d
  |mj_contactForce d st.left_toe_contact_id 0 +
      mj_contactForce d st.left_heel_contact_id 0| +
    |mj_contactForce d st.left_toe_contact_id 1 +
      mj_contactForce d st.left_heel_contact_id 1| +
    |mj_contactForce d st.left_toe_contact_id 2 +
      mj_contactForce d st.left_heel_contact_id 2|

/-- The gate `should_add_force`: the C double cast of the boolean
`mocap_pos[3 * body_mocapid_ltoe + 2] <= 0.05`, i.e. 1 when the
synthesized left-toe marker height in the pose buffer is at most 0.05 and
0 otherwise. -/
noncomputable def shouldAddForce (m : MjModel) (d : MjData) : ℝ :=
  if d.mocap_pos (3 * m.mocapid ("ltoe") + 2) ≤ 0.05 then 1 else 0

/-- The scalar value of `ComputeFootContactForceResidual`: a logistic
squashing of `force_abs_sum` centered at 500 with slope 80, multiplied by
the `should_add_force` gate. -/
noncomputable def footContactForceValue (m : MjModel) (d : MjData) : ℝ :=
  (1 / (1 + Real.exp ((forceAbsSum m d - 500) / 80))) * shouldAddForce m d

/-- `Pushing::ResidualFn::ComputeFootContactForceResidual`: the length-1
residual block. -/
noncomputable def ComputeFootContactForceResidual (m : MjModel) (d : MjData) :
    List ℝ :=
  [footContactForceValue m d]

/-- The C `atan2(y, x)`, modelled as the argument of the complex number
`x + y*i` (range `(-π, π]`, with `atan2(0, 0) = 0`). -/
noncomputable def atan2 (y x : ℝ) : ℝ := Complex.arg ⟨x, y⟩

/-- The upper-body sway table of `move_mocap_poses`: marker base name with
its y and z scale (`upper_body_scale_y`, `upper_body_scale_z`). -/
noncomputable def upper_body_table : List (String × ℝ × ℝ) :=
  [("pelvis", -0.25, -0.05), ("lhip", -0.5, 0.05), ("rhip", -0.5, 0.05),
   ("lknee", -1, -0.1), ("head", 1.3, -0.15), ("lshoulder", 1.3, -0.15),
   ("rshoulder", 1.3, -0.15)]

/-- `move_mocap_poses` from the source: synthesizes the warped world-space
targets for the `nmocap - 1` non-goal markers (translation to the
skateboard, horizontal re-centering on the marker mean, foot oscillator,
upper-body sway, then tilt and heading rotations).  The module state
`glob` (the counter `jiiri`) is in scope for the C function but never
read or written; it is threaded as an explicit argument to make that
visible.  The buffer is modelled as a total function with sequential
writes as function updates, and the final `mju_copy` out of the first
`3*(nmocap-1)` entries as the returned list. -/
noncomputable def move_mocap_poses (glob : Globals) (m : MjModel) (d : MjData)
    (parameters : List ℝ) (mode : ℕ) : List ℝ :=
  let n1 := m.nmocap - 1
  let b0 : ℕ → ℝ := fun i => m.key_mpos (3 * m.nmocap * mode + i) * 1
  let sc : ℕ → ℝ := fun j => d.xpos (3 * m.skateboard_xbody + j)
  let avg0 : ℝ := (∑ i ∈ Finset.range n1, b0 (3 * i)) / n1
  let avg1 : ℝ := (∑ i ∈ Finset.range n1, b0 (3 * i + 1)) / n1
  let b1 : ℕ → ℝ := fun i =>
    if i < 3 * n1 then
      if i % 3 = 0 then b0 i + sc 0
      else if i % 3 = 1 then b0 i + sc 1
      else b0 i + (sc 2 - 0.1)
    else b0 i
  let b2 : ℕ → ℝ := fun i =>
    if i < 3 * n1 then
      if i % 3 = 0 then b1 i - avg0
      else if i % 3 = 1 then b1 i - avg1
      else b1 i
    else b1 i
  let b3 : ℕ → ℝ := fun i =>
    if i < 3 * n1 ∧ i % 3 = 0 then b2 i - 0.1 else b2 i
  let amplitude_z := parameters.getD (m.paramIndex ("Amplitude_z")) 0
  let amplitude_y := parameters.getD (m.paramIndex ("Amplitude_y")) 0
  let frequency_z := parameters.getD (m.paramIndex ("Frequency_z")) 0
  let frequency_y := parameters.getD (m.paramIndex ("Frequency_y")) 0
  let phase_z := parameters.getD (m.paramIndex ("Phase_z")) 0
  let phase_y := parameters.getD (m.paramIndex ("Phase_y")) 0
  let offset_z := parameters.getD (m.paramIndex ("Offset_z")) 0
  let offset_y := parameters.getD (m.paramIndex ("Offset_y")) 0
  let time := d.time
  let ltoe := m.mocapid ("ltoe")
  let lheel := m.mocapid ("lheel")
  let left_toe_pos : ℕ → ℝ := fun j => m.key_mpos (3 * ltoe + j)
  let left_heel_pos : ℕ → ℝ := fun j => m.key_mpos (3 * lheel + j)
  let left_foot_z_ref :=
    amplitude_z * Real.sin (2 * Real.pi * frequency_z * time + phase_z) - offset_z
  let left_foot_y_toe_ref :=
    amplitude_y * Real.sin (2 * Real.pi * frequency_y * time + phase_y) +
      left_toe_pos 1 + offset_y
  let left_toe_new_pos := left_foot_y_toe_ref
  let bu1 := Function.update b3 (3 * ltoe + 1) (b3 (3 * ltoe + 1) + left_toe_new_pos)
  let bu2 := Function.update bu1 (3 * lheel + 1) (bu1 (3 * ltoe + 1) - 0.2)
  let bu3 := Function.update bu2 (3 * ltoe + 2) (left_foot_z_ref + left_toe_pos 2)
  let bu4 := Function.update bu3 (3 * lheel + 2) (left_foot_z_ref + left_heel_pos 2)
  let b5 : ℕ → ℝ := upper_body_table.foldl (fun buf p =>
    let bm := m.mocapid p.1
    let body_pos1 := m.key_mpos (3 * bm + 1)
    let body_y_ref := -p.2.1 * amplitude_y * 0.5 *
        Real.sin (2 * Real.pi * frequency_y * time + phase_y) +
      body_pos1 + offset_y + 0.2
    let body_z_ref := -p.2.2 * Real.sin (2 * Real.pi * frequency_y * time + phase_y)
    let bufy := Function.update buf (3 * bm + 1) (buf (3 * bm + 1) + body_y_ref)
    Function.update bufy (3 * bm + 2) (bufy (3 * bm + 2) + body_z_ref)) bu4
  let skateboard_heading :=
    atan2 (d.xmat (9 * m.skateboard_xbody + 3)) (d.xmat (9 * m.skateboard_xbody)) -
      Real.pi / 2
  let goal_pos : ℕ → ℝ := fun j => d.mocap_pos (3 * m.goal_mocapid + j)
  let goal_heading :=
    atan2 (goal_pos 1 - sc 1) (goal_pos 0 - sc 0) - Real.pi / 2
  let heading_error := Real.sin (goal_heading - skateboard_heading) / 3
  let mocap_tilt := parameters.getD (m.paramIndex ("Tilt ratio")) 0
  let tilt_angle := (min 0.5 (max (-0.5) heading_error) * Real.pi / 2) * mocap_tilt
  (List.range n1).flatMap (fun i =>
    let rel_x := b5 (3 * i) - sc 0
    let rel_y := b5 (3 * i + 1) - sc 1
    let rotated_z := rel_x * Real.sin tilt_angle + b5 (3 * i + 2) * Real.cos tilt_angle
    let rel_x2 := rel_x * Real.cos tilt_angle - b5 (3 * i + 2) * Real.sin tilt_angle
    let rotated_x := Real.cos skateboard_heading * rel_x2 -
      Real.sin skateboard_heading * rel_y
    let rotated_y := Real.sin skateboard_heading * rel_x2 +
      Real.cos skateboard_heading * rel_y
    [sc 0 + rotated_x, sc 1 + rotated_y, rotated_z])

/-- `get_body_mpos` helper of `ComputeTrackingResidual`: the interpolated
target position of marker `name`, component `j`, read from the translated
mocap buffer (`mju_scl3` of the current frame plus `mju_addToScl3` of the
next; out-of-buffer reads default to 0). -/
noncomputable def get_body_mpos (m : MjModel) (mocap_translated : List ℝ)
    (k0 k1 : ℤ) (w0 w1 : ℝ) (name : String) (j : ℕ) : ℝ :=
  w0 * mocap_translated.getD
      (3 * (m.nmocap - 1) * k0.toNat + 3 * m.mocapid name + j) 0 +
    w1 * mocap_translated.getD
      (3 * (m.nmocap - 1) * k1.toNat + 3 * m.mocapid name + j) 0

/-- `Pushing::ResidualFn::ComputeTrackingResidual`: the average marker
error, the per-track-body position errors relative to the averages, and
the per-track-body finite-difference velocity errors, pushed in that
order. -/
noncomputable def ComputeTrackingResidual (glob : Globals) (rf : ResidualFn)
    (m : MjModel) (d : MjData) : List ℝ :=
  let mocap_translated := move_mocap_poses glob m d rf.parameters rf.current_mode
  let start := MotionStartIndex rf.current_mode
  let len := MotionLength rf.current_mode
  let current_index : ℝ := (d.time - rf.reference_time) * kFps + start
  let last_key_index : ℤ := (start : ℤ) + len - 1
  let iv := ComputeInterpolationValues current_index last_key_index
  let bodyM : String → ℕ → ℝ := fun name j =>
    get_body_mpos m mocap_translated iv.1 iv.2.1 iv.2.2.1 iv.2.2.2 name j
  let bodyS : String → ℕ → ℝ := fun name j =>
    d.sensor ("tracking_pos[" ++ name ++ "]") j
  let num_body := body_names.length
  let avgM : ℕ → ℝ := fun j =>
    (body_names.map (fun name => bodyM name j)).sum * (1 / (num_body : ℝ))
  let avgS : ℕ → ℝ := fun j =>
    (body_names.map (fun name => bodyS name j)).sum * (1 / (num_body : ℝ))
  [avgM 0 - avgS 0, avgM 1 - avgS 1, avgM 2 - avgS 2] ++
    track_body_names.flatMap (fun name =>
      [(bodyM name 0 - avgM 0) - (bodyS name 0 - avgS 0),
       (bodyM name 1 - avgM 1) - (bodyS name 1 - avgS 1),
       (bodyM name 2 - avgM 2) - (bodyS name 2 - avgS 2)]) ++
    track_body_names.flatMap (fun name =>
      let bmid := m.mocapid name
      let fd : ℕ → ℝ := fun j =>
        (m.key_mpos (3 * m.nmocap * iv.2.1.toNat + 3 * bmid + j) -
          m.key_mpos (3 * m.nmocap * iv.1.toNat + 3 * bmid + j)) * kFps
      let sv : ℕ → ℝ := fun j => d.sensor ("tracking_linvel[" ++ name ++ "]") j
      [fd 0 - sv 0, fd 1 - sv 1, fd 2 - sv 2])

/-- `ComputeComVelXyResidual`: board global linear velocity minus torso
subtree linear velocity, x and y components. -/
noncomputable def ComputeComVelXyResidual (m : MjModel) (d : MjData) : List ℝ :=
  [d.sensor ("skateboard_framelinvel") 0 - d.sensor ("torso_subtreelinvel") 0,
   d.sensor ("skateboard_framelinvel") 1 - d.sensor ("torso_subtreelinvel") 1]

/-- `ComputeFootPositionsResidual`: right toe against the front plate and
left toe against the tail, three axes each. -/
noncomputable def ComputeFootPositionsResidual (m : MjModel) (d : MjData) :
    List ℝ :=
  [d.sensor ("tracking_pos[rtoe]") 0 - d.sensor ("track-front-plate") 0,
   d.sensor ("tracking_pos[rtoe]") 1 - d.sensor ("track-front-plate") 1,
   d.sensor ("tracking_pos[rtoe]") 2 - d.sensor ("track-front-plate") 2,
   d.sensor ("tracking_pos[ltoe]") 0 - d.sensor ("track-tail") 0,
   d.sensor ("tracking_pos[ltoe]") 1 - d.sensor ("track-tail") 1,
   d.sensor ("tracking_pos[ltoe]") 2 - d.sensor ("track-tail") 2]

/-- `ComputeBoardHeadingResidual`: componentwise difference between the
normalized planar board heading and the normalized planar bearing from
board to goal (the two yaw locals of the source are dead and omitted). -/
noncomputable def ComputeBoardHeadingResidual (rf : ResidualFn) (m : MjModel)
    (d : MjData) : List ℝ :=
  let sh := mju_normalize2 (d.xmat (9 * rf.skateboard_body_id),
    d.xmat (9 * rf.skateboard_body_id + 3))
  let btg := mju_normalize2
    (d.mocap_pos (3 * rf.goal_body_mocap_id) - d.xpos (3 * rf.skateboard_body_id),
     d.mocap_pos (3 * rf.goal_body_mocap_id + 1) -
       d.xpos (3 * rf.skateboard_body_id + 1))
  [sh.1 - btg.1, sh.2 - btg.2]

/-- `Pushing::ResidualFn::ComputeBoardVelocityResidual`.  The target is
`(Velocity, 0, 0)`; the global frame-linear-velocity sensor is rotated
into the board frame by `mju_rotVecMatT` (multiplication by the
transposed orientation matrix, `localv i = mat[i]*g0 + mat[3+i]*g1 +
mat[6+i]*g2`); the first two components subtract the local velocity (with
the fixed tolerance 0.03 additionally subtracted from the longitudinal
one) while the third subtracts the raw global vertical velocity. -/
noncomputable def ComputeBoardVelocityResidual (rf : ResidualFn) (m : MjModel)
    (d : MjData) : List ℝ :=
  let target : ℕ → ℝ := fun i =>
    if i = 0 then rf.parameters.getD (m.paramIndex ("Velocity")) 0 else 0
  let global : ℕ → ℝ := fun i => d.sensor ("skateboard_framelinvel") i
  let mat : ℕ → ℝ := fun k => d.xmat (9 * rf.skateboard_body_id + k)
  let localv : ℕ → ℝ := fun i =>
    mat i * global 0 + mat (3 + i) * global 1 + mat (6 + i) * global 2
  [target 0 - localv 0 - 0.03, target 1 - localv 1, target 2 - global 2]

/-- The board velocity residual as the claim words it: every one of the
three components is the target minus the local-frame (rotated) velocity,
with the tolerance subtracted from the longitudinal component only.
Stated from the claim text, for comparison against
`ComputeBoardVelocityResidual`. -/
noncomputable def boardVelocityResidualClaimed (rf : ResidualFn) (m : MjModel)
    (d : MjData) : List ℝ :=
  let target : ℕ → ℝ := fun i =>
    if i = 0 then rf.parameters.getD (m.paramIndex ("Velocity")) 0 else 0
  let global : ℕ → ℝ := fun i => d.sensor ("skateboard_framelinvel") i
  let mat : ℕ → ℝ := fun k => d.xmat (9 * rf.skateboard_body_id + k)
  let localv : ℕ → ℝ := fun i =>
    mat i * global 0 + mat (3 + i) * global 1 + mat (6 + i) * global 2
  [target 0 - localv 0 - 0.03, target 1 - localv 1, target 2 - localv 2]

/-- Residual-function state used by the board-velocity counterexample:
empty parameter vector, skateboard body 0. -/
noncomputable def velTestRF : ResidualFn where
  parameters := []
  current_mode := 0
  reference_time := 0
  skateboard_body_id := 0
  goal_body_mocap_id := 0

/-- Physics data for the board-velocity counterexample: the skateboard is
rotated 90 degrees about the x axis (orientation matrix rows
`(1,0,0), (0,0,-1), (0,1,0)`) and the global frame-linear velocity sensor
reads `(0, 0, 1)`. -/
noncomputable def velTestData : MjData where
  time := 0
  qpos := fun _ => 0
  qvel := fun _ => 0
  ctrl := fun _ => 0
  xpos := fun _ => 0
  xmat := fun i => if i = 0 then 1 else if i = 5 then -1 else if i = 7 then 1 else 0
  mocap_pos := fun _ => 0
  ncon := 0
  contact_geom1 := fun _ => 0
  contact_geom2 := fun _ => 0
  contactForce := fun _ _ => 0
  sensor := fun _ i => if i = 2 then 1 else 0

/-- Block 1 of the residual: raw copy of the `nv - 6 - 6 - 7` humanoid
joint velocities starting at `qvel + 6`. -/
noncomputable def jointVelBlock (m : MjModel) (d : MjData) : List ℝ :=
  (List.range (m.nv - 6 - 6 - 7)).map (fun i => d.qvel (6 + i))

/-- Block 2 of the residual: raw copy of the commanded control. -/
noncomputable def ctrlBlock (m : MjModel) (d : MjData) : List ℝ :=
  (List.range m.nu).map (fun i => d.ctrl i)

/-- Modelled from the spec: `CheckSensorDim` (an mjpc utility whose source
is outside this file) compares the number of residual scalars written
against the externally declared sensor dimensionality and fatally errors
on a mismatch; it is called once per residual evaluation. -/
def CheckSensorDim (m : MjModel) (counter : ℕ) : Prop :=
  counter = m.sensorDim

instance (m : MjModel) (counter : ℕ) : Decidable (CheckSensorDim m counter) := by
  unfold CheckSensorDim
  infer_instance

/-- The residual vector written by `Pushing::ResidualFn::Residual`, as the
concatenation of its blocks in source order. -/
noncomputable def ResidualList (glob : Globals) (rf : ResidualFn) (m : MjModel)
    (d : MjData) : List ℝ :=
  jointVelBlock m d ++ ctrlBlock m d ++ ComputeTrackingResidual glob rf m d ++
    ComputeFootPositionsResidual m d ++ ComputeBoardHeadingResidual rf m d ++
    ComputeBoardVelocityResidual rf m d ++ ComputeFootContactForceResidual m d ++
    ComputeComVelXyResidual m d

/-- `Pushing::ResidualFn::Residual` including the final `CheckSensorDim`
call: the written vector when the declared sensor dimensionality matches
the number of scalars written, `none` (fatal configuration error)
otherwise. -/
noncomputable def Residual (glob : Globals) (rf : ResidualFn) (m : MjModel)
    (d : MjData) : Option (List ℝ) :=
  if CheckSensorDim m (ResidualList glob rf m d).length then
    some (ResidualList glob rf m d)
  else none

/-- `Pushing::TransitionLocked`.  The requested `mode` and the Bernoulli
draw consumed by `move_goal` are explicit inputs; the result is the
updated `{current_mode_, reference_time_}` state paired with the updated
physics data (keyframe reset when the mode switches or time is zero, then
the interpolated raw keyframe write, the synthesized marker write, and
the goal update). -/
noncomputable def TransitionLocked (glob : Globals) (m : MjModel)
    (s : TransState) (mode : ℕ) (d : MjData) (parameters : List ℝ)
    (draw : Bool) : TransState × MjData :=
  let start := MotionStartIndex mode
  let len := MotionLength mode
  let s2 := if s.current_mode ≠ mode ∨ d.time = 0 then TransState.mk mode d.time
    else s
  let d0 := if s.current_mode ≠ mode ∨ d.time = 0 then
      { d with
        qpos := fun i => if i < m.nq then m.key_qpos (m.nq * start + i) else d.qpos i,
        qvel := fun i => if i < m.nv then m.key_qvel (m.nv * start + i) else d.qvel i }
    else d
  let current_index : ℝ := (d0.time - s2.reference_time) * kFps + start
  let last_key_index : ℤ := (start : ℤ) + len - 1
  let iv := ComputeInterpolationValues current_index last_key_index
  let d1 := { d0 with mocap_pos := fun i =>
      if i < 3 * (m.nmocap - 1) then
        iv.2.2.1 * m.key_mpos (3 * m.nmocap * iv.1.toNat + i) +
          iv.2.2.2 * m.key_mpos (3 * m.nmocap * iv.2.1.toNat + i)
      else d0.mocap_pos i }
  let r := move_mocap_poses glob m d1 parameters mode
  let d2 := { d1 with mocap_pos := fun i =>
      if i < 3 * (m.nmocap - 1) then r.getD i 0 else d1.mocap_pos i }
  let d3 := move_goal m d2 draw
  (s2, d3)

/-- Concrete model used by the witness theorems: one mocap marker (the
goal), skateboard xbody 0, 19 degrees of freedom, no actuators. -/
noncomputable def testModel : MjModel where
  nq := 1
  nv := 19
  nu := 0
  nmocap := 1
  sensorDim := 83
  skateboard_xbody := 0
  goal_mocapid := 0
  mocapid := fun _ => 0
  paramIndex := fun _ => 0
  left_heel_geom := 1
  left_toe_geom := 2
  floor_geom := 3
  key_qpos := fun _ => 0
  key_qvel := fun _ => 0
  key_mpos := fun _ => 0

/-- Concrete physics data used by the witness theorems: skateboard at the
origin facing +x, goal marker at `(0.3, 0, 0)`, no contacts. -/
noncomputable def testData : MjData where
  time := 0
  qpos := fun _ => 0
  qvel := fun _ => 0
  ctrl := fun _ => 0
  xpos := fun _ => 0
  xmat := fun i => if i = 0 then 1 else 0
  mocap_pos := fun i => if i = 0 then 0.3 else 0
  ncon := 0
  contact_geom1 := fun _ => 0
  contact_geom2 := fun _ => 0
  contactForce := fun _ _ => 0
  sensor := fun _ _ => 0

/-- A second physics data record that agrees with `testData` on the
fields `move_mocap_poses` reads (time, poses, orientations, pose buffer)
but differs in the commanded control. -/
noncomputable def testData2 : MjData :=
  { testData with ctrl := fun _ => 7 }

-- ===================================================================
-- Theorems
-- ===================================================================

/-- Frame helper: `move_goal` never changes any field of the physics data
other than `mocap_pos`, and touches `mocap_pos` only at the three entries
of the goal marker. -/
theorem move_goal_frame (m : MjModel) (d : MjData) (draw : Bool) :
    (move_goal m d draw).time = d.time ∧
    (move_goal m d draw).qpos = d.qpos ∧
    (move_goal m d draw).qvel = d.qvel ∧
    (move_goal m d draw).ctrl = d.ctrl ∧
    (move_goal m d draw).xpos = d.xpos ∧
    (move_goal m d draw).xmat = d.xmat ∧
    (move_goal m d draw).ncon = d.ncon ∧
    (move_goal m d draw).contact_geom1 = d.contact_geom1 ∧
    (move_goal m d draw).contact_geom2 = d.contact_geom2 ∧
    (move_goal m d draw).contactForce = d.contactForce ∧
    (move_goal m d draw).sensor = d.sensor ∧
    (∀ i : ℕ, i ≠ 3 * m.goal_mocapid → i ≠ 3 * m.goal_mocapid + 1 →
      i ≠ 3 * m.goal_mocapid + 2 →
      (move_goal m d draw).mocap_pos i = d.mocap_pos i) := by
  unfold move_goal
  split
  · refine ⟨rfl, rfl, rfl, rfl, rfl, rfl, rfl, rfl, rfl, rfl, rfl, ?_⟩
    intro i h0 h1 h2
    simp only [if_neg h0, if_neg h1, if_neg h2]
  · exact ⟨rfl, rfl, rfl, rfl, rfl, rfl, rfl, rfl, rfl, rfl, rfl, fun i _ _ _ => rfl⟩

/-- C9: for every motion id, `MotionStartIndex id` equals the sum of
`MotionLength i` over all `i < id`, and `MotionStartIndex 0 = 0`. -/
theorem motionStartIndex_eq_sum_of_lengths (id : ℕ) :
    MotionStartIndex id = ∑ i ∈ Finset.range id, MotionLength i ∧
    MotionStartIndex 0 = 0 := by
  constructor
  · induction id with
    | zero => simp [MotionStartIndex]
    | succ n ih =>
        rw [MotionStartIndex, List.range_succ, List.foldl_append]
        rw [MotionStartIndex] at ih
        rw [ih, Finset.sum_range_succ]
        simp
  · simp [MotionStartIndex]

/-- C2: interpolation weights sum to one and lie in `[0, 1]`; the index is
clamped to `[0, max_index]`, so `weight_0 = 1` at `index ≤ 0`, both frame
indices collapse to `max_index` with `weight_1 = 0` at `index ≥ max_index`,
and always `0 ≤ index_0 ≤ index_1 ≤ max_index`. -/
theorem computeInterpolationValues_spec (index : ℝ) (max_index : ℤ)
    (hmax : 0 ≤ max_index) :
    (ComputeInterpolationValues index max_index).2.2.1 +
      (ComputeInterpolationValues index max_index).2.2.2 = 1 ∧
    0 ≤ (ComputeInterpolationValues index max_index).2.2.1 ∧
    (ComputeInterpolationValues index max_index).2.2.1 ≤ 1 ∧
    0 ≤ (ComputeInterpolationValues index max_index).2.2.2 ∧
    (ComputeInterpolationValues index max_index).2.2.2 ≤ 1 ∧
    (index ≤ 0 → (ComputeInterpolationValues index max_index).2.2.1 = 1) ∧
    ((max_index : ℝ) ≤ index →
      (ComputeInterpolationValues index max_index).1 = max_index ∧
      (ComputeInterpolationValues index max_index).2.1 = max_index ∧
      (ComputeInterpolationValues index max_index).2.2.2 = 0) ∧
    0 ≤ (ComputeInterpolationValues index max_index).1 ∧
    (ComputeInterpolationValues index max_index).1 ≤
      (ComputeInterpolationValues index max_index).2.1 ∧
    (ComputeInterpolationValues index max_index).2.1 ≤ max_index := by
  have hmr : (0 : ℝ) ≤ (max_index : ℝ) := by exact_mod_cast hmax
  simp only [ComputeInterpolationValues, std_clamp]
  set c : ℝ := if index < 0 then 0 else if (max_index : ℝ) < index then (max_index : ℝ) else index with hc
  have hc0 : 0 ≤ c := by
    rw [hc]
    split
    · exact le_refl 0
    · rename_i h1
      push_neg at h1
      split
      · exact hmr
      · exact h1
  have hcmax : c ≤ (max_index : ℝ) := by
    rw [hc]
    split
    · exact hmr
    · split
      · exact le_refl _
      · linarith
  have hfl : (⌊c⌋ : ℝ) ≤ c := Int.floor_le c
  have hfl1 : c < (⌊c⌋ : ℝ) + 1 := Int.lt_floor_add_one c
  have hf0 : 0 ≤ ⌊c⌋ := by
    rw [Int.le_floor]
    exact_mod_cast hc0
  have hfmax : ⌊c⌋ ≤ max_index := by
    have := Int.floor_le_floor hcmax
    simpa using this
  refine ⟨by ring, ?_, ?_, ?_, ?_, ?_, ?_, ?_, ?_, ?_⟩
  · linarith
  · linarith
  · linarith
  · linarith
  · intro h0
    have hce : c = 0 := by
      rw [hc]
      split
      · rfl
      · split
        · rename_i h1 h2
          push_neg at h1
          linarith
        · rename_i h1 h2
          push_neg at h1
          linarith
    rw [hce]
    simp
  · intro hge
    have hce : c = (max_index : ℝ) := by
      rw [hc]
      split
      · rename_i h1
        linarith
      · split
        · rfl
        · rename_i h1 h2
          push_neg at h2
          linarith
    have hfc : ⌊c⌋ = max_index := by
      rw [hce]
      exact Int.floor_intCast max_index
    refine ⟨hfc, ?_, ?_⟩
    · rw [hfc]
      omega
    · rw [hce]
      simp
  · exact hf0
  · exact le_min (by omega) hfmax
  · exact min_le_right _ _

/-- C2 witness: the interpolation properties evaluated at index `1/2`
against a last frame of `1`. -/
theorem computeInterpolationValues_spec_witness :
    (0 : ℤ) ≤ 1 ∧
    ((ComputeInterpolationValues (1/2 : ℝ) 1).2.2.1 +
      (ComputeInterpolationValues (1/2 : ℝ) 1).2.2.2 = 1 ∧
     0 ≤ (ComputeInterpolationValues (1/2 : ℝ) 1).2.2.1 ∧
     (ComputeInterpolationValues (1/2 : ℝ) 1).2.2.1 ≤ 1 ∧
     0 ≤ (ComputeInterpolationValues (1/2 : ℝ) 1).2.2.2 ∧
     (ComputeInterpolationValues (1/2 : ℝ) 1).2.2.2 ≤ 1 ∧
     ((1/2 : ℝ) ≤ 0 → (ComputeInterpolationValues (1/2 : ℝ) 1).2.2.1 = 1) ∧
     (((1 : ℤ) : ℝ) ≤ (1/2 : ℝ) →
       (ComputeInterpolationValues (1/2 : ℝ) 1).1 = 1 ∧
       (ComputeInterpolationValues (1/2 : ℝ) 1).2.1 = 1 ∧
       (ComputeInterpolationValues (1/2 : ℝ) 1).2.2.2 = 0) ∧
     0 ≤ (ComputeInterpolationValues (1/2 : ℝ) 1).1 ∧
     (ComputeInterpolationValues (1/2 : ℝ) 1).1 ≤
       (ComputeInterpolationValues (1/2 : ℝ) 1).2.1 ∧
     (ComputeInterpolationValues (1/2 : ℝ) 1).2.1 ≤ 1) :=
  ⟨by decide, computeInterpolationValues_spec (1/2 : ℝ) 1 (by decide)⟩

/-- C3: `move_goal` relocates the goal exactly when the planar distance
from the skateboard to the goal is strictly below 0.5; on relocation the
new goal is the skateboard position plus 8 times the unit heading plus
(sign chosen by the binary draw) 2 times the unit perpendicular, the z
coordinate is kept, and the planar distance from the skateboard to the
new goal equals `sqrt (8 ^ 2 + 2 ^ 2)` for both draws. -/
theorem move_goal_relocation_spec (m : MjModel) (d : MjData) (draw : Bool) :
    (¬ goalDist m d < 0.5 → move_goal m d draw = d) ∧
    (goalDist m d < 0.5 → mjMINVAL ≤ headingNorm m d →
      (move_goal m d draw).mocap_pos (3 * m.goal_mocapid) =
        d.xpos (3 * m.skateboard_xbody) +
          ((mju_normalize2 (d.xmat (9 * m.skateboard_xbody),
              d.xmat (9 * m.skateboard_xbody + 3))).1 * 8 +
            (if draw then
              -(mju_normalize2 (d.xmat (9 * m.skateboard_xbody),
                  d.xmat (9 * m.skateboard_xbody + 3))).2 * 2
             else
              (mju_normalize2 (d.xmat (9 * m.skateboard_xbody),
                  d.xmat (9 * m.skateboard_xbody + 3))).2 * 2)) ∧
      (move_goal m d draw).mocap_pos (3 * m.goal_mocapid + 1) =
        d.xpos (3 * m.skateboard_xbody + 1) +
          ((mju_normalize2 (d.xmat (9 * m.skateboard_xbody),
              d.xmat (9 * m.skateboard_xbody + 3))).2 * 8 +
            (if draw then
              (mju_normalize2 (d.xmat (9 * m.skateboard_xbody),
                  d.xmat (9 * m.skateboard_xbody + 3))).1 * 2
             else
              -(mju_normalize2 (d.xmat (9 * m.skateboard_xbody),
                  d.xmat (9 * m.skateboard_xbody + 3))).1 * 2)) ∧
      (move_goal m d draw).mocap_pos (3 * m.goal_mocapid + 2) =
        d.mocap_pos (3 * m.goal_mocapid + 2) ∧
      Real.sqrt
        (((move_goal m d draw).mocap_pos (3 * m.goal_mocapid) -
            d.xpos (3 * m.skateboard_xbody)) ^ 2 +
          ((move_goal m d draw).mocap_pos (3 * m.goal_mocapid + 1) -
            d.xpos (3 * m.skateboard_xbody + 1)) ^ 2) =
        Real.sqrt ((8 : ℝ) ^ 2 + 2 ^ 2)) := by
  constructor
  · intro hge
    unfold move_goal
    rw [if_neg hge]
  · intro hlt hn
    have h31 : 3 * m.goal_mocapid + 1 ≠ 3 * m.goal_mocapid := by omega
    have h32 : 3 * m.goal_mocapid + 2 ≠ 3 * m.goal_mocapid := by omega
    have h321 : 3 * m.goal_mocapid + 2 ≠ 3 * m.goal_mocapid + 1 := by omega
    have hx : (move_goal m d draw).mocap_pos (3 * m.goal_mocapid) =
        d.xpos (3 * m.skateboard_xbody) +
          ((mju_normalize2 (d.xmat (9 * m.skateboard_xbody),
              d.xmat (9 * m.skateboard_xbody + 3))).1 * 8 +
            (if draw then
              -(mju_normalize2 (d.xmat (9 * m.skateboard_xbody),
                  d.xmat (9 * m.skateboard_xbody + 3))).2 * 2
             else
              (mju_normalize2 (d.xmat (9 * m.skateboard_xbody),
                  d.xmat (9 * m.skateboard_xbody + 3))).2 * 2)) := by
      unfold move_goal
      rw [if_pos hlt]
      simp
    have hy : (move_goal m d draw).mocap_pos (3 * m.goal_mocapid + 1) =
        d.xpos (3 * m.skateboard_xbody + 1) +
          ((mju_normalize2 (d.xmat (9 * m.skateboard_xbody),
              d.xmat (9 * m.skateboard_xbody + 3))).2 * 8 +
            (if draw then
              (mju_normalize2 (d.xmat (9 * m.skateboard_xbody),
                  d.xmat (9 * m.skateboard_xbody + 3))).1 * 2
             else
              -(mju_normalize2 (d.xmat (9 * m.skateboard_xbody),
                  d.xmat (9 * m.skateboard_xbody + 3))).1 * 2)) := by
      unfold move_goal
      rw [if_pos hlt]
      simp only [if_neg h31]
      simp
    have hz : (move_goal m d draw).mocap_pos (3 * m.goal_mocapid + 2) =
        d.mocap_pos (3 * m.goal_mocapid + 2) := by
      unfold move_goal
      rw [if_pos hlt]
      simp only [if_neg h32, if_neg h321]
      simp
    refine ⟨hx, hy, hz, ?_⟩
    rw [hx, hy]
    have hminpos : (0 : ℝ) < mjMINVAL := by norm_num [mjMINVAL]
    have hnpos : 0 < headingNorm m d := lt_of_lt_of_le hminpos hn
    have hnn : ¬ headingNorm m d < mjMINVAL := not_lt.mpr hn
    have hnsq : headingNorm m d ^ 2 =
        (d.xmat (9 * m.skateboard_xbody)) ^ 2 +
          (d.xmat (9 * m.skateboard_xbody + 3)) ^ 2 := by
      unfold headingNorm
      exact Real.sq_sqrt (by positivity)
    have hu : mju_normalize2 (d.xmat (9 * m.skateboard_xbody),
        d.xmat (9 * m.skateboard_xbody + 3)) =
        (d.xmat (9 * m.skateboard_xbody) / headingNorm m d,
         d.xmat (9 * m.skateboard_xbody + 3) / headingNorm m d) := by
      unfold mju_normalize2 headingNorm
      unfold headingNorm at hnn
      rw [if_neg hnn]
    have hne : headingNorm m d ≠ 0 := ne_of_gt hnpos
    have hsum : (mju_normalize2 (d.xmat (9 * m.skateboard_xbody),
          d.xmat (9 * m.skateboard_xbody + 3))).1 ^ 2 +
        (mju_normalize2 (d.xmat (9 * m.skateboard_xbody),
          d.xmat (9 * m.skateboard_xbody + 3))).2 ^ 2 = 1 := by
      rw [hu]
      field_simp
      rw [← hnsq]
    have key : ∀ a b p q c0 c1 : ℝ, a ^ 2 + b ^ 2 = 1 →
        (c0 = -b * 2 ∧ c1 = a * 2) ∨ (c0 = b * 2 ∧ c1 = -a * 2) →
        (p + (a * 8 + c0) - p) ^ 2 + (q + (b * 8 + c1) - q) ^ 2 =
          (8 : ℝ) ^ 2 + 2 ^ 2 := by
      rintro a b p q c0 c1 hab (⟨rfl, rfl⟩ | ⟨rfl, rfl⟩) <;>
        linear_combination (68 : ℝ) * hab
    congr 1
    cases draw
    · exact key _ _ _ _ _ _ hsum (Or.inr ⟨by simp, by simp⟩)
    · exact key _ _ _ _ _ _ hsum (Or.inl ⟨by simp, by simp⟩)

/-- C3 witness: with the skateboard at the origin facing +x and the goal
at planar distance 0.3, relocation fires and the relocated goal sits at
planar distance `sqrt (8 ^ 2 + 2 ^ 2)` from the skateboard. -/
theorem move_goal_relocation_spec_witness :
    goalDist testModel testData < 0.5 ∧
    mjMINVAL ≤ headingNorm testModel testData ∧
    Real.sqrt
      (((move_goal testModel testData true).mocap_pos 0 - testData.xpos 0) ^ 2 +
        ((move_goal testModel testData true).mocap_pos 1 - testData.xpos 1) ^ 2) =
      Real.sqrt ((8 : ℝ) ^ 2 + 2 ^ 2) := by
  have h1 : goalDist testModel testData < 0.5 := by
    unfold goalDist testModel testData
    simp only
    rw [Real.sqrt_lt' (by norm_num)]
    norm_num
  have h2 : mjMINVAL ≤ headingNorm testModel testData := by
    have he : headingNorm testModel testData = 1 := by
      unfold headingNorm testModel testData
      norm_num [Real.sqrt_one]
    rw [he]
    norm_num [mjMINVAL]
  refine ⟨h1, h2, ?_⟩
  have hmain := (move_goal_relocation_spec testModel testData true).2 h1 h2
  have hg : testModel.goal_mocapid = 0 := rfl
  have hs : testModel.skateboard_xbody = 0 := rfl
  have := hmain.2.2.2
  rw [hg, hs] at this
  simpa using this

/-- C10: a call to `move_goal` modifies at most the three mocap-position
entries of the goal marker; every other mocap-position entry and every
other field of the physics data is unchanged, whether or not a relocation
fires. -/
theorem move_goal_frame_effect (m : MjModel) (d : MjData) (draw : Bool) :
    (move_goal m d draw).time = d.time ∧
    (move_goal m d draw).qpos = d.qpos ∧
    (move_goal m d draw).qvel = d.qvel ∧
    (move_goal m d draw).ctrl = d.ctrl ∧
    (move_goal m d draw).xpos = d.xpos ∧
    (move_goal m d draw).xmat = d.xmat ∧
    (move_goal m d draw).ncon = d.ncon ∧
    (move_goal m d draw).contact_geom1 = d.contact_geom1 ∧
    (move_goal m d draw).contact_geom2 = d.contact_geom2 ∧
    (move_goal m d draw).contactForce = d.contactForce ∧
    (move_goal m d draw).sensor = d.sensor ∧
    (∀ i : ℕ, i ≠ 3 * m.goal_mocapid → i ≠ 3 * m.goal_mocapid + 1 →
      i ≠ 3 * m.goal_mocapid + 2 →
      (move_goal m d draw).mocap_pos i = d.mocap_pos i) :=
  move_goal_frame m d draw

/-- C10 witness: the mocap entry at index 5 (outside the goal block of
the test model) and the simulation time are untouched by `move_goal`. -/
theorem move_goal_frame_effect_witness :
    ((5 : ℕ) ≠ 3 * testModel.goal_mocapid) ∧
    ((5 : ℕ) ≠ 3 * testModel.goal_mocapid + 1) ∧
    ((5 : ℕ) ≠ 3 * testModel.goal_mocapid + 2) ∧
    (move_goal testModel testData false).mocap_pos 5 = testData.mocap_pos 5 ∧
    (move_goal testModel testData false).time = testData.time := by
  have hg : testModel.goal_mocapid = 0 := rfl
  have h0 : (5 : ℕ) ≠ 3 * testModel.goal_mocapid := by rw [hg]; omega
  have h1 : (5 : ℕ) ≠ 3 * testModel.goal_mocapid + 1 := by rw [hg]; omega
  have h2 : (5 : ℕ) ≠ 3 * testModel.goal_mocapid + 2 := by rw [hg]; omega
  exact ⟨h0, h1, h2,
    (move_goal_frame_effect testModel testData false).2.2.2.2.2.2.2.2.2.2.2 5 h0 h1 h2,
    (move_goal_frame_effect testModel testData false).1⟩

/-- Helper: the contact-search fold leaves any initial state unchanged
when no contact in the scanned index list matches a left-foot/floor pair. -/
theorem contactScan_foldl_nomatch (m : MjModel) (d : MjData) (l : List ℕ)
    (h : ∀ i ∈ l, ¬ heelFloorContact m d i ∧ ¬ toeFloorContact m d i)
    (st : ContactScanState) :
    l.foldl
      (fun st i =>
        if st.found = 2 then st
        else if heelFloorContact m d i then
          { st with left_toe_contact_id := (i : ℤ), found := st.found + 1 }
        else if toeFloorContact m d i then
          { st with left_heel_contact_id := (i : ℤ), found := st.found + 1 }
        else st)
      st = st := by
  induction l generalizing st with
  | nil => rfl
  | cons a t ih =>
      have ha := h a (List.mem_cons_self a t)
      have ht : ∀ i ∈ t, ¬ heelFloorContact m d i ∧ ¬ toeFloorContact m d i :=
        fun i hi => h i (List.mem_cons_of_mem a hi)
      simp only [List.foldl_cons]
      rw [if_neg ha.1, if_neg ha.2]
      have hsplit : (if st.found = 2 then st else st) = st := by
        split <;> rfl
      rw [hsplit]
      exact ih ht st

/-- C4: the foot contact-force residual always lies in `[0, 1]`; it is
exactly 0 when the synthesized left-toe marker height exceeds 0.05, and
otherwise equals the logistic value
`1 / (1 + exp((force_abs_sum - 500) / 80))`. -/
theorem footContactForce_range_and_gate (m : MjModel) (d : MjData) :
    0 ≤ footContactForceValue m d ∧
    footContactForceValue m d ≤ 1 ∧
    (0.05 < d.mocap_pos (3 * m.mocapid ("ltoe") + 2) →
      footContactForceValue m d = 0) ∧
    (d.mocap_pos (3 * m.mocapid ("ltoe") + 2) ≤ 0.05 →
      footContactForceValue m d =
        1 / (1 + Real.exp ((forceAbsSum m d - 500) / 80))) := by
  have hexp : 0 < Real.exp ((forceAbsSum m d - 500) / 80) := Real.exp_pos _
  have hden : 0 < 1 + Real.exp ((forceAbsSum m d - 500) / 80) := by linarith
  have hlog0 : 0 ≤ 1 / (1 + Real.exp ((forceAbsSum m d - 500) / 80)) := by positivity
  have hlog1 : 1 / (1 + Real.exp ((forceAbsSum m d - 500) / 80)) ≤ 1 := by
    rw [div_le_one hden]
    linarith
  by_cases hz : d.mocap_pos (3 * m.mocapid ("ltoe") + 2) ≤ 0.05
  · have hg : shouldAddForce m d = 1 := by
      unfold shouldAddForce
      rw [if_pos hz]
    refine ⟨?_, ?_, ?_, ?_⟩
    · unfold footContactForceValue
      rw [hg, mul_one]
      exact hlog0
    · unfold footContactForceValue
      rw [hg, mul_one]
      exact hlog1
    · intro hgt
      exact absurd hz (not_le.mpr hgt)
    · intro _
      unfold footContactForceValue
      rw [hg, mul_one]
  · have hg : shouldAddForce m d = 0 := by
      unfold shouldAddForce
      rw [if_neg hz]
    refine ⟨?_, ?_, ?_, ?_⟩
    · unfold footContactForceValue
      rw [hg, mul_zero]
    · unfold footContactForceValue
      rw [hg, mul_zero]
      norm_num
    · intro _
      unfold footContactForceValue
      rw [hg, mul_zero]
    · intro hle
      exact absurd hle hz

/-- C4 witness: for the test state the left-toe marker height is at most
0.05, so the residual equals the logistic value there. -/
theorem footContactForce_range_and_gate_witness :
    testData.mocap_pos (3 * testModel.mocapid ("ltoe") + 2) ≤ 0.05 ∧
    footContactForceValue testModel testData =
      1 / (1 + Real.exp ((forceAbsSum testModel testData - 500) / 80)) := by
  have hz : testData.mocap_pos (3 * testModel.mocapid ("ltoe") + 2) ≤ 0.05 := by
    unfold testData testModel
    norm_num
  exact ⟨hz, (footContactForce_range_and_gate testModel testData).2.2.2 hz⟩

/-- C6: when no contact pairs a left-foot geometry with the floor, the
scan leaves both contact ids at the `-1` sentinel, the modelled external
`mj_contactForce` reads no contact entry and returns zero for that
sentinel, and the residual computation completes normally with the
explicit default value (the logistic image of a zero force sum, gated). -/
theorem footContactForce_no_contact_default (m : MjModel) (d : MjData)
    (h : ∀ i, i < d.ncon →
      ¬ heelFloorContact m d i ∧ ¬ toeFloorContact m d i) :
    contactScan m d = ⟨-1, -1, 0⟩ ∧
    (∀ k, mj_contactForce d (contactScan m d).left_toe_contact_id k = 0) ∧
    (∀ k, mj_contactForce d (contactScan m d).left_heel_contact_id k = 0) ∧
    footContactForceValue m d =
      (1 / (1 + Real.exp ((0 - 500) / 80))) * shouldAddForce m d := by
  have hscan : contactScan m d = ⟨-1, -1, 0⟩ := by
    unfold contactScan
    exact contactScan_foldl_nomatch m d (List.range d.ncon)
      (fun i hi => h i (List.mem_range.mp hi)) ⟨-1, -1, 0⟩
  have hforce : ∀ k, mj_contactForce d (-1) k = 0 := by
    intro k
    unfold mj_contactForce
    rw [if_neg]
    intro hcontra
    omega
  have hsum : forceAbsSum m d = 0 := by
    unfold forceAbsSum
    rw [hscan]
    simp only
    rw [hforce 0, hforce 1, hforce 2]
    norm_num
  refine ⟨hscan, ?_, ?_, ?_⟩
  · intro k
    rw [hscan]
    exact hforce k
  · intro k
    rw [hscan]
    exact hforce k
  · unfold footContactForceValue
    rw [hsum]

/-- C6 witness: the test state has an empty contact list, and the residual
evaluates to the explicit default value. -/
theorem footContactForce_no_contact_default_witness :
    testData.ncon = 0 ∧
    footContactForceValue testModel testData =
      (1 / (1 + Real.exp ((0 - 500) / 80))) * shouldAddForce testModel testData := by
  have h : ∀ i, i < testData.ncon →
      ¬ heelFloorContact testModel testData i ∧
      ¬ toeFloorContact testModel testData i := by
    intro i hi
    have : testData.ncon = 0 := rfl
    omega
  exact ⟨rfl, (footContactForce_no_contact_default testModel testData h).2.2.2⟩

/-- C5 counterexample: with the skateboard rotated 90 degrees about the x
axis and a purely vertical global velocity, the code returns
`0 - global_z = -1` in the third component while the claim's form (local
velocity on every axis) would give `0 - local_z = 0`; the claim is false
as stated. -/
theorem boardVelocityResidual_claim_counterexample :
    ComputeBoardVelocityResidual velTestRF testModel velTestData ≠
      boardVelocityResidualClaimed velTestRF testModel velTestData := by
  intro hcontra
  have h2 := congrArg (fun l => l.getD 2 0) hcontra
  simp only [ComputeBoardVelocityResidual, boardVelocityResidualClaimed,
    velTestRF, testModel, velTestData, List.getD_cons_succ,
    List.getD_cons_zero] at h2
  norm_num at h2

/-- C5 amended: the first two components of the board velocity residual
are the target minus the local-frame (rotated) velocity, with the 0.03
tolerance subtracted from the longitudinal one; the third component is 0
minus the raw global vertical velocity sensor value (not rotated). -/
theorem boardVelocityResidual_amended (rf : ResidualFn) (m : MjModel)
    (d : MjData) :
    ComputeBoardVelocityResidual rf m d =
      [rf.parameters.getD (m.paramIndex ("Velocity")) 0 -
        (d.xmat (9 * rf.skateboard_body_id) *
            d.sensor ("skateboard_framelinvel") 0 +
          d.xmat (9 * rf.skateboard_body_id + 3) *
            d.sensor ("skateboard_framelinvel") 1 +
          d.xmat (9 * rf.skateboard_body_id + 6) *
            d.sensor ("skateboard_framelinvel") 2) - 0.03,
       0 - (d.xmat (9 * rf.skateboard_body_id + 1) *
            d.sensor ("skateboard_framelinvel") 0 +
          d.xmat (9 * rf.skateboard_body_id + 4) *
            d.sensor ("skateboard_framelinvel") 1 +
          d.xmat (9 * rf.skateboard_body_id + 7) *
            d.sensor ("skateboard_framelinvel") 2),
       0 - d.sensor ("skateboard_framelinvel") 2] := by
  simp only [ComputeBoardVelocityResidual]
  norm_num

/-- C7: `move_mocap_poses` is deterministic and reads no hidden state: for
any two module-counter states and any two physics data that agree on
simulation time, body positions, body orientations, and the pose buffer,
the two calls produce identical marker outputs. -/
theorem move_mocap_poses_deterministic (g1 g2 : Globals) (m : MjModel)
    (d1 d2 : MjData) (parameters : List ℝ) (mode : ℕ)
    (ht : d1.time = d2.time) (hx : d1.xpos = d2.xpos)
    (hm : d1.xmat = d2.xmat) (hp : d1.mocap_pos = d2.mocap_pos) :
    move_mocap_poses g1 m d1 parameters mode =
      move_mocap_poses g2 m d2 parameters mode := by
  unfold move_mocap_poses
  rw [ht, hx, hm, hp]

/-- C7 witness: two states differing only in the commanded control and
the module counter give identical synthesized marker lists. -/
theorem move_mocap_poses_deterministic_witness :
    testData2.time = testData.time ∧
    move_mocap_poses ⟨0⟩ testModel testData2 [] 0 =
      move_mocap_poses ⟨5⟩ testModel testData [] 0 :=
  ⟨rfl, move_mocap_poses_deterministic ⟨0⟩ ⟨5⟩ testModel testData2 testData [] 0
    rfl rfl rfl rfl⟩

/-- Helper: the stored transition state returned by `TransitionLocked`. -/
theorem transitionLocked_fst (glob : Globals) (m : MjModel) (s : TransState)
    (mode : ℕ) (d : MjData) (parameters : List ℝ) (draw : Bool) :
    (TransitionLocked glob m s mode d parameters draw).1 =
      if s.current_mode ≠ mode ∨ d.time = 0 then TransState.mk mode d.time
      else s := rfl

/-- Helper: the position state returned by `TransitionLocked` is exactly
the reset branch result (the later mocap and goal writes leave it alone). -/
theorem transitionLocked_qpos (glob : Globals) (m : MjModel) (s : TransState)
    (mode : ℕ) (d : MjData) (parameters : List ℝ) (draw : Bool) :
    (TransitionLocked glob m s mode d parameters draw).2.qpos =
      (if s.current_mode ≠ mode ∨ d.time = 0 then
        ({ d with
           qpos := fun i => if i < m.nq then
             m.key_qpos (m.nq * MotionStartIndex mode + i) else d.qpos i,
           qvel := fun i => if i < m.nv then
             m.key_qvel (m.nv * MotionStartIndex mode + i) else d.qvel i } : MjData)
       else d).qpos :=
  (move_goal_frame _ _ _).2.1

/-- Helper: the velocity state returned by `TransitionLocked` is exactly
the reset branch result. -/
theorem transitionLocked_qvel (glob : Globals) (m : MjModel) (s : TransState)
    (mode : ℕ) (d : MjData) (parameters : List ℝ) (draw : Bool) :
    (TransitionLocked glob m s mode d parameters draw).2.qvel =
      (if s.current_mode ≠ mode ∨ d.time = 0 then
        ({ d with
           qpos := fun i => if i < m.nq then
             m.key_qpos (m.nq * MotionStartIndex mode + i) else d.qpos i,
           qvel := fun i => if i < m.nv then
             m.key_qvel (m.nv * MotionStartIndex mode + i) else d.qvel i } : MjData)
       else d).qvel :=
  (move_goal_frame _ _ _).2.2.1

/-- C8: a `TransitionLocked` call stores the requested mode, stores the
current simulation time as the reference time, and overwrites qpos/qvel
with the motion library's starting keyframe for that mode, exactly when
the requested mode differs from the stored mode or the time is zero;
otherwise the stored mode and reference time (and qpos/qvel) are left
unchanged by the step. -/
theorem transitionLocked_reset_iff (glob : Globals) (m : MjModel)
    (s : TransState) (mode : ℕ) (d : MjData) (parameters : List ℝ)
    (draw : Bool) :
    ((s.current_mode ≠ mode ∨ d.time = 0) →
      (TransitionLocked glob m s mode d parameters draw).1.current_mode = mode ∧
      (TransitionLocked glob m s mode d parameters draw).1.reference_time = d.time ∧
      (∀ i, i < m.nq →
        (TransitionLocked glob m s mode d parameters draw).2.qpos i =
          m.key_qpos (m.nq * MotionStartIndex mode + i)) ∧
      (∀ i, i < m.nv →
        (TransitionLocked glob m s mode d parameters draw).2.qvel i =
          m.key_qvel (m.nv * MotionStartIndex mode + i))) ∧
    (¬ (s.current_mode ≠ mode ∨ d.time = 0) →
      (TransitionLocked glob m s mode d parameters draw).1 = s ∧
      (TransitionLocked glob m s mode d parameters draw).2.qpos = d.qpos ∧
      (TransitionLocked glob m s mode d parameters draw).2.qvel = d.qvel) := by
  constructor
  · intro hcond
    have h1 := transitionLocked_fst glob m s mode d parameters draw
    rw [if_pos hcond] at h1
    have hp := transitionLocked_qpos glob m s mode d parameters draw
    rw [if_pos hcond] at hp
    have hv := transitionLocked_qvel glob m s mode d parameters draw
    rw [if_pos hcond] at hv
    refine ⟨by rw [h1], by rw [h1], ?_, ?_⟩
    · intro i hi
      rw [congrFun hp i]
      show (if i < m.nq then m.key_qpos (m.nq * MotionStartIndex mode + i)
        else d.qpos i) = _
      rw [if_pos hi]
    · intro i hi
      rw [congrFun hv i]
      show (if i < m.nv then m.key_qvel (m.nv * MotionStartIndex mode + i)
        else d.qvel i) = _
      rw [if_pos hi]
  · intro hcond
    have h1 := transitionLocked_fst glob m s mode d parameters draw
    rw [if_neg hcond] at h1
    have hp := transitionLocked_qpos glob m s mode d parameters draw
    rw [if_neg hcond] at hp
    have hv := transitionLocked_qvel glob m s mode d parameters draw
    rw [if_neg hcond] at hv
    exact ⟨h1, hp, hv⟩

/-- C8 witness: with stored mode 1 and requested mode 0 the reset fires
and the stored state becomes `{0, time}`. -/
theorem transitionLocked_reset_iff_witness :
    ((TransState.mk 1 5).current_mode ≠ 0 ∨ testData.time = 0) ∧
    (TransitionLocked ⟨0⟩ testModel (TransState.mk 1 5) 0 testData []
      false).1.current_mode = 0 ∧
    (TransitionLocked ⟨0⟩ testModel (TransState.mk 1 5) 0 testData []
      false).1.reference_time = testData.time := by
  have hcond : (TransState.mk 1 5).current_mode ≠ 0 ∨ testData.time = 0 :=
    Or.inl (by norm_num)
  have h := (transitionLocked_reset_iff ⟨0⟩ testModel (TransState.mk 1 5) 0
    testData [] false).1 hcond
  exact ⟨hcond, h.1, h.2.1⟩

/-- Helper: the length of a flat-map is the sum of the block lengths. -/
theorem length_flatMap_sum {α β : Type} (l : List α) (F : α → List β) :
    (l.flatMap F).length = (l.map (fun a => (F a).length)).sum := by
  induction l with
  | nil => rfl
  | cons a t ih =>
      rw [List.flatMap_cons, List.length_append, ih, List.map_cons,
        List.sum_cons]

/-- Helper: the tracking residual always holds 69 scalars
(3 + 11*3 + 11*3). -/
theorem computeTrackingResidual_length (glob : Globals) (rf : ResidualFn)
    (m : MjModel) (d : MjData) :
    (ComputeTrackingResidual glob rf m d).length = 69 := by
  simp only [ComputeTrackingResidual]
  rw [List.length_append, List.length_append, length_flatMap_sum,
    length_flatMap_sum]
  norm_num [track_body_names]

/-- C1: one `Residual` evaluation writes exactly the eight blocks in
source order with lengths `nv - 19`, `nu`, 69, 6, 2, 3, 1 and 2, for a
total of `(nv - 19) + nu + 83` scalars independent of the physics state;
the total is checked once against the externally declared sensor
dimensionality, and a mismatch is fatal (`none`). -/
theorem residual_layout (glob : Globals) (rf : ResidualFn) (m : MjModel)
    (d : MjData) (h19 : 19 ≤ m.nv) :
    ResidualList glob rf m d =
      jointVelBlock m d ++ ctrlBlock m d ++ ComputeTrackingResidual glob rf m d ++
        ComputeFootPositionsResidual m d ++ ComputeBoardHeadingResidual rf m d ++
        ComputeBoardVelocityResidual rf m d ++
        ComputeFootContactForceResidual m d ++ ComputeComVelXyResidual m d ∧
    (jointVelBlock m d).length = m.nv - 19 ∧
    (ctrlBlock m d).length = m.nu ∧
    (ComputeTrackingResidual glob rf m d).length = 69 ∧
    (ComputeFootPositionsResidual m d).length = 6 ∧
    (ComputeBoardHeadingResidual rf m d).length = 2 ∧
    (ComputeBoardVelocityResidual rf m d).length = 3 ∧
    (ComputeFootContactForceResidual m d).length = 1 ∧
    (ComputeComVelXyResidual m d).length = 2 ∧
    (ResidualList glob rf m d).length = (m.nv - 19) + m.nu + 83 ∧
    (Residual glob rf m d = some (ResidualList glob rf m d) ↔
      m.sensorDim = (m.nv - 19) + m.nu + 83) ∧
    (Residual glob rf m d = none ↔
      m.sensorDim ≠ (m.nv - 19) + m.nu + 83) := by
  have hjv : (jointVelBlock m d).length = m.nv - 19 := by
    unfold jointVelBlock
    rw [List.length_map, List.length_range]
    omega
  have hctrl : (ctrlBlock m d).length = m.nu := by
    unfold ctrlBlock
    rw [List.length_map, List.length_range]
  have htrack := computeTrackingResidual_length glob rf m d
  have hlen : (ResidualList glob rf m d).length = (m.nv - 19) + m.nu + 83 := by
    unfold ResidualList
    simp only [List.length_append]
    rw [hjv, hctrl, htrack]
    norm_num [ComputeFootPositionsResidual, ComputeBoardHeadingResidual,
      ComputeBoardVelocityResidual, ComputeFootContactForceResidual,
      ComputeComVelXyResidual]
  have hcheck : CheckSensorDim m (ResidualList glob rf m d).length ↔
      m.sensorDim = (m.nv - 19) + m.nu + 83 := by
    unfold CheckSensorDim
    rw [hlen]
    exact eq_comm
  refine ⟨rfl, hjv, hctrl, htrack, rfl, rfl, rfl, rfl, rfl, hlen, ?_, ?_⟩
  · by_cases hdim : m.sensorDim = (m.nv - 19) + m.nu + 83
    · have hcs : CheckSensorDim m (ResidualList glob rf m d).length :=
        hcheck.mpr hdim
      unfold Residual
      rw [if_pos hcs]
      exact ⟨fun _ => hdim, fun _ => rfl⟩
    · have hcs : ¬ CheckSensorDim m (ResidualList glob rf m d).length :=
        fun hc => hdim (hcheck.mp hc)
      unfold Residual
      rw [if_neg hcs]
      constructor
      · intro hcontra
        exact absurd hcontra (by simp)
      · intro h
        exact absurd h hdim
  · by_cases hdim : m.sensorDim = (m.nv - 19) + m.nu + 83
    · have hcs : CheckSensorDim m (ResidualList glob rf m d).length :=
        hcheck.mpr hdim
      unfold Residual
      rw [if_pos hcs]
      constructor
      · intro hcontra
        exact absurd hcontra (by simp)
      · intro h
        exact absurd hdim h
    · have hcs : ¬ CheckSensorDim m (ResidualList glob rf m d).length :=
        fun hc => hdim (hcheck.mp hc)
      unfold Residual
      rw [if_neg hcs]
      exact ⟨fun _ => hdim, fun _ => rfl⟩

/-- C1 witness: on the test model (nv = 19, nu = 0) the residual holds
exactly 83 scalars. -/
theorem residual_layout_witness :
    19 ≤ testModel.nv ∧
    (ResidualList ⟨0⟩ velTestRF testModel testData).length =
      (testModel.nv - 19) + testModel.nu + 83 := by
  have h19 : 19 ≤ testModel.nv := by norm_num [testModel]
  exact ⟨h19,
    (residual_layout ⟨0⟩ velTestRF testModel testData h19).2.2.2.2.2.2.2.2.2.1⟩
